import Mathlib

/-!
  # Verification of the cat-game pet simulation

  A shallow embedding of the simulation core of the virtual-pet game
  (the drag-to-play component variant, the canonical one): the `CatStats`
  record, the `clamp` utility, the mood resolver `getCatSprite`, the
  interaction handlers (`handleFeed`, `handlePlay`, `handleStopPlaying`,
  `handlePet`, `handleTouchEnd`, `handleSleep`), the combo bonus
  `handleCombo`, the 15-second decay tick, the random mood-swing event,
  the mood-history effect, and the localStorage load/merge logic.

  Modelling conventions:
  * JS `number` stats are embedded as `Int` (all deltas and defaults are
    integers, so stats stay integral).
  * Every `Date.now()` read inside one synchronous handler invocation is
    modelled as a single timestamp parameter `now` (successive reads in
    one event-loop callback differ by at most a few milliseconds, far
    below every threshold the code compares against).
  * React's functional state updates queued inside one handler are applied
    in order, each seeing the previous update's result; in particular the
    `handleCombo` update runs after the handler's primary update.
  * `Math.random()` draws are abstracted into explicit parameters
    (a fired/boost boolean for the random event, a duration for timeouts).
  * Presentation-only state (particle positions, cloud decorations,
    sparkle flags, toy coordinates) is omitted; the transient activity
    flags that feed the mood resolver are kept.
-/

/-- A toy choice passed to `handlePlay` (`"ball" | "mouse"` in source). -/
inductive Toy
  | ball
  | mouse
deriving DecidableEq, Repr

/-- Facing direction of the running-cat sprite (`'left' | 'right'`). -/
inductive RunDir
  | left
  | right
deriving DecidableEq, Repr

/-- Animation frame of the running-cat sprite (`1 | 2`). -/
inductive RunFrame
  | one
  | two
deriving DecidableEq, Repr

/-- One entry of `moodHistory`: `{ time: number; mood: string }`. -/
structure MoodEntry where
  time : Int
  mood : String
deriving DecidableEq, Repr

/-- The persisted pet state, field for field the source's `CatStats` type. -/
structure CatStats where
  hunger : Int
  happiness : Int
  energy : Int
  lastInteraction : Int
  lastPet : Int
  lastFed : Int
  lastPlay : Int
  lastSleep : Int
  totalCareDays : Int
  dailyStreak : Int
  moodHistory : List MoodEntry
  lastToy : Option Toy
deriving DecidableEq, Repr

/-- The source's `defaultStats` object. `lastInteraction` is `Date.now()`
at module evaluation time, passed here as `initNow`. -/
def defaultStats (initNow : Int) : CatStats :=
  { hunger := 40
    happiness := 60
    energy := 70
    lastInteraction := initNow
    lastPet := 0
    lastFed := 0
    lastPlay := 0
    lastSleep := 0
    totalCareDays := 1
    dailyStreak := 1
    moodHistory := []
    lastToy := none }

/-- The source's `clamp(v, min = 0, max = 100) = Math.max(min, Math.min(max, v))`. -/
def clamp (v : Int) (lo : Int := 0) (hi : Int := 100) : Int :=
  max lo (min hi v)

/-- Sprite path fragment for a run direction. -/
def RunDir.charAt : RunDir → String
  | RunDir.left => "left"
  | RunDir.right => "right"

/-- Sprite path fragment for a run frame. -/
def RunFrame.charAt : RunFrame → String
  | RunFrame.one => "1"
  | RunFrame.two => "2"

/-- The source's mood resolver `getCatSprite(stats, eating, sleeping,
playing, petting, running, direction, frame)`. The `Date.now()` it reads
in the recently-petted rule is the parameter `now`. -/
def getCatSprite (stats : CatStats) (eating sleeping playing petting : Bool)
    (running : Bool) (direction : RunDir) (frame : RunFrame) (now : Int) : String :=
  if eating then "/assets/cat_eating.png"
  else if sleeping then "/assets/cat_sitting_comfortable_purring.png"
  else if running then
    "/assets/cat_run_" ++ direction.charAt ++ "_" ++ frame.charAt ++ ".png"
  else if playing then "/assets/cat_very_happy.png"
  else if petting then "/assets/cat_sitting_happy.png"
  else if stats.energy < 20 then "/assets/cat_mild_happy.png"
  else if stats.happiness < 30 ∨ stats.hunger > 80 then "/assets/cat_sad.png"
  else if stats.happiness > 90 ∧ stats.energy > 70 then "/assets/cat_very_happy.png"
  else if stats.happiness > 80 ∧ stats.hunger < 50 then "/assets/cat_sitting_happy.png"
  else if stats.happiness ≥ 60 ∧ stats.happiness ≤ 80 ∧ now - stats.lastPet < 5 * 60 * 1000 then
    "/assets/cat_sitting_comfortable_purring.png"
  else if stats.happiness ≥ 30 ∧ stats.happiness < 60 ∧ stats.hunger < 70 ∧ stats.energy > 30 then
    "/assets/cat_mild_happy.png"
  else "/assets/cat_mild_happy.png"

/-- `getCatSprite` as every call site invokes it: the component passes
`playing := isPlaying && !isDragging` and `running := isPlaying && isDragging`. -/
def resolveMood (stats : CatStats) (isEating isSleeping isPlaying isPetting isDragging : Bool)
    (direction : RunDir) (frame : RunFrame) (now : Int) : String :=
  getCatSprite stats isEating isSleeping (isPlaying && !isDragging) isPetting
    (isPlaying && isDragging) direction frame now

/-- The abstract mood identifiers of the specification's mood resolver. -/
inductive Mood
  | eatingMood
  | resting
  | runningMood
  | veryHappy
  | sittingHappy
  | mildHappy
  | sad
deriving DecidableEq, Repr

/-- The specification's `resolveMood` priority list, rule for rule in the
spec's order 1-12 with first match winning, written from the spec's words
for comparison with the source's `getCatSprite`. -/
def resolveMoodSpec (stats : CatStats)
    (isEating isSleeping isPlaying isPetting isDragging : Bool) (now : Int) : Mood :=
  if isEating then Mood.eatingMood
  else if isSleeping then Mood.resting
  else if isPlaying && isDragging then Mood.runningMood
  else if isPlaying then Mood.veryHappy
  else if isPetting then Mood.sittingHappy
  else if stats.energy < 20 then Mood.mildHappy
  else if stats.happiness < 30 ∨ stats.hunger > 80 then Mood.sad
  else if stats.happiness > 90 ∧ stats.energy > 70 then Mood.veryHappy
  else if stats.happiness > 80 ∧ stats.hunger < 50 then Mood.sittingHappy
  else if stats.happiness ≥ 60 ∧ stats.happiness ≤ 80 ∧ now - stats.lastPet < 5 * 60 * 1000 then
    Mood.resting
  else if stats.happiness ≥ 30 ∧ stats.happiness < 60 ∧ stats.hunger < 70 ∧ stats.energy > 30 then
    Mood.mildHappy
  else Mood.mildHappy

/-- The sprite asset each abstract mood renders as (the running sprite is
further parameterized by direction and frame). -/
def Mood.sprite (m : Mood) (direction : RunDir) (frame : RunFrame) : String :=
  match m with
  | Mood.eatingMood => "/assets/cat_eating.png"
  | Mood.resting => "/assets/cat_sitting_comfortable_purring.png"
  | Mood.runningMood =>
      "/assets/cat_run_" ++ direction.charAt ++ "_" ++ frame.charAt ++ ".png"
  | Mood.veryHappy => "/assets/cat_very_happy.png"
  | Mood.sittingHappy => "/assets/cat_sitting_happy.png"
  | Mood.mildHappy => "/assets/cat_mild_happy.png"
  | Mood.sad => "/assets/cat_sad.png"

/-- The component state the handlers touch beyond `CatStats`: the transient
activity flags, the active toy sprite, and the pending eating-clear timer
(`eatingTimeout.current`, recorded as the wall-clock instant it will fire).
Presentation-only state (hearts, sparkles, positions) is omitted. -/
structure GameWorld where
  stats : CatStats
  eating : Bool
  showSleep : Bool
  isPlaying : Bool
  isPetting : Bool
  isDragging : Bool
  activeToy : Option String
  eatingTimer : Option Int
deriving DecidableEq, Repr

/-- The source's `handleCombo` state update: it runs after the calling
handler's primary update, so the `prev.lastInteraction` it reads is the
value that primary update just wrote. -/
def handleCombo (now : Int) (prev : CatStats) : CatStats :=
  if now - prev.lastInteraction < 10000 then
    { prev with happiness := clamp (prev.happiness + 10) }
  else prev

/-- The source's `handleFeed`. `eatDur` is the randomized
`4000 + Math.random() * 2000` eating duration; the no-op guard
`if (eating) return` comes first. -/
def handleFeed (w : GameWorld) (now : Int) (eatDur : Int) : GameWorld :=
  if w.eating then w
  else
    { w with
      eating := true
      stats := handleCombo now
        { w.stats with
          hunger := clamp (w.stats.hunger - 35)
          happiness := clamp (w.stats.happiness + 5)
          lastFed := now
          lastInteraction := now }
      eatingTimer := some (now + eatDur) }

/-- Sprite path of a toy, as `handlePlay` stores it in `activeToy`. -/
def Toy.sprite : Toy → String
  | Toy.ball => "/assets/cat_toy_ball.png"
  | Toy.mouse => "/assets/cat_toy_mouse.png"

/-- The source's `handlePlay(toy)` (drag variant): records the toy and the
timestamps, raises `isPlaying`, and applies no stat delta of its own before
calling `handleCombo`. -/
def handlePlay (w : GameWorld) (toy : Toy) (now : Int) : GameWorld :=
  { w with
    isPlaying := true
    activeToy := some toy.sprite
    isDragging := false
    stats := handleCombo now
      { w.stats with
        lastPlay := now
        lastInteraction := now
        lastToy := some toy } }

/-- The source's `handleStopPlaying`: lowers `isPlaying`, clears the toy,
and only now applies the play reward keyed on `prev.lastToy === "ball"`. -/
def handleStopPlaying (w : GameWorld) : GameWorld :=
  { w with
    isPlaying := false
    activeToy := none
    isDragging := false
    stats :=
      let happinessGain : Int := if w.stats.lastToy = some Toy.ball then 25 else 30
      let energyCost : Int := if w.stats.lastToy = some Toy.ball then 12 else 8
      let hungerIncrease : Int := if w.stats.lastToy = some Toy.ball then 8 else 6
      { w.stats with
        happiness := clamp (w.stats.happiness + happinessGain)
        energy := clamp (w.stats.energy - energyCost)
        hunger := clamp (w.stats.hunger + hungerIncrease) } }

/-- The source's `handlePet` (the tap path): +15 happiness, pet timestamps,
`isPetting` raised, then `handleCombo`. -/
def handlePet (w : GameWorld) (now : Int) : GameWorld :=
  { w with
    isPetting := true
    stats := handleCombo now
      { w.stats with
        happiness := clamp (w.stats.happiness + 15)
        lastPet := now
        lastInteraction := now } }

/-- The source's `handleSleep`: +55 energy, sleep timestamps, `showSleep`
raised, then `handleCombo`. -/
def handleSleep (w : GameWorld) (now : Int) : GameWorld :=
  { w with
    showSleep := true
    stats := handleCombo now
      { w.stats with
        energy := clamp (w.stats.energy + 55)
        lastSleep := now
        lastInteraction := now } }

/-- The source's `handleTouchEnd`, with `touchStart.current : number | null`
as `tStart`. The guard is the JS test
`touchStart.current && Date.now() - touchStart.current > 600`: a non-null,
non-zero start timestamp held for strictly more than 600 ms selects the
long-press branch (+25 happiness, then combo, without raising `isPetting`);
otherwise the tap branch is `handlePet`. -/
def handleTouchEnd (w : GameWorld) (tStart : Option Int) (now : Int) : GameWorld :=
  match tStart with
  | none => handlePet w now
  | some v =>
      if v ≠ 0 ∧ now - v > 600 then
        { w with
          stats := handleCombo now
            { w.stats with
              happiness := clamp (w.stats.happiness + 25)
              lastPet := now
              lastInteraction := now } }
      else handlePet w now

/-- One firing of the 15-second stat-decay interval. -/
def decayTick (s : CatStats) (now : Int) : CatStats :=
  { s with
    hunger := clamp (s.hunger + 2)
    energy := clamp (s.energy - 2)
    happiness := clamp (s.happiness - 1)
    lastInteraction := now }

/-- `n` firings of the decay interval. The tick's stat arithmetic does not
depend on the clock, so one `now` serves every firing. -/
def decayIter : Nat → CatStats → Int → CatStats
  | 0, s, _ => s
  | n + 1, s, now => decayIter n (decayTick s now) now

/-- One firing of the random mood-swing interval: `fire` is the 20%
`Math.random() < 0.2` draw and `up` the coin-flip choosing `+10` or `-10`. -/
def randomEvent (s : CatStats) (fire up : Bool) : CatStats :=
  if fire then
    { s with happiness := clamp (s.happiness + if up then 10 else -10) }
  else s

/-- The mood-history effect: appends `{ time: now, mood: getCatSprite(...) }`
to `prev.moodHistory.slice(-20)` (JS `slice(-20)` keeps the last 20 entries,
i.e. drops `length - 20` from the front, nothing when length ≤ 20). -/
def moodHistoryTick (w : GameWorld) (direction : RunDir) (frame : RunFrame)
    (now : Int) : GameWorld :=
  { w with
    stats := { w.stats with
      moodHistory :=
        w.stats.moodHistory.drop (w.stats.moodHistory.length - 20) ++
          [{ time := now
             mood := resolveMood w.stats w.eating w.showSleep w.isPlaying
               w.isPetting w.isDragging direction frame now }] } }

/-- The eating-clear timeout firing: `setEating(false)`. -/
def clearEating (w : GameWorld) : GameWorld :=
  { w with eating := false, eatingTimer := none }

/-- A stored snapshot as the load path sees it: `JSON.parse` of whatever
was saved, any subset of the `CatStats` fields possibly present. -/
structure SavedSnapshot where
  hunger : Option Int := none
  happiness : Option Int := none
  energy : Option Int := none
  lastInteraction : Option Int := none
  lastPet : Option Int := none
  lastFed : Option Int := none
  lastPlay : Option Int := none
  lastSleep : Option Int := none
  totalCareDays : Option Int := none
  dailyStreak : Option Int := none
  moodHistory : Option (List MoodEntry) := none
  lastToy : Option (Option Toy) := none
deriving DecidableEq, Repr

/-- The `useState` initializer: no usable snapshot yields `defaultStats`;
a stored one is spread over the defaults, `{ ...defaultStats, ...saved }`,
so each present field wins over its default and each absent field falls
back to it. -/
def loadStats (saved : Option SavedSnapshot) (initNow : Int) : CatStats :=
  match saved with
  | none => defaultStats initNow
  | some snap =>
      { hunger := snap.hunger.getD (defaultStats initNow).hunger
        happiness := snap.happiness.getD (defaultStats initNow).happiness
        energy := snap.energy.getD (defaultStats initNow).energy
        lastInteraction := snap.lastInteraction.getD (defaultStats initNow).lastInteraction
        lastPet := snap.lastPet.getD (defaultStats initNow).lastPet
        lastFed := snap.lastFed.getD (defaultStats initNow).lastFed
        lastPlay := snap.lastPlay.getD (defaultStats initNow).lastPlay
        lastSleep := snap.lastSleep.getD (defaultStats initNow).lastSleep
        totalCareDays := snap.totalCareDays.getD (defaultStats initNow).totalCareDays
        dailyStreak := snap.dailyStreak.getD (defaultStats initNow).dailyStreak
        moodHistory := snap.moodHistory.getD (defaultStats initNow).moodHistory
        lastToy := snap.lastToy.getD (defaultStats initNow).lastToy }

/-- `JSON.stringify` of a full state: the snapshot with every field present. -/
def saveStats (s : CatStats) : SavedSnapshot :=
  { hunger := some s.hunger
    happiness := some s.happiness
    energy := some s.energy
    lastInteraction := some s.lastInteraction
    lastPet := some s.lastPet
    lastFed := some s.lastFed
    lastPlay := some s.lastPlay
    lastSleep := some s.lastSleep
    totalCareDays := some s.totalCareDays
    dailyStreak := some s.dailyStreak
    moodHistory := some s.moodHistory
    lastToy := some s.lastToy }

/-- The three core stats sit in `[0, 100]`. -/
def InRange (s : CatStats) : Prop :=
  0 ≤ s.hunger ∧ s.hunger ≤ 100 ∧
  0 ≤ s.happiness ∧ s.happiness ≤ 100 ∧
  0 ≤ s.energy ∧ s.energy ≤ 100

instance (s : CatStats) : Decidable (InRange s) := by
  unfold InRange; infer_instance

/-- A `GameWorld` with the given stats and every transient flag at its
initial value, as on component mount. -/
def mkWorld (s : CatStats) : GameWorld :=
  { stats := s
    eating := false
    showSleep := false
    isPlaying := false
    isPetting := false
    isDragging := false
    activeToy := none
    eatingTimer := none }

theorem clamp_mem (v : Int) : 0 ≤ clamp v ∧ clamp v ≤ 100 := by
  unfold clamp; omega

theorem inRange_handleCombo (now : Int) (s : CatStats) (h : InRange s) :
    InRange (handleCombo now s) := by
  obtain ⟨h1, h2, h3, h4, h5, h6⟩ := h
  unfold handleCombo
  split_ifs
  · exact ⟨h1, h2, (clamp_mem _).1, (clamp_mem _).2, h5, h6⟩
  · exact ⟨h1, h2, h3, h4, h5, h6⟩

theorem inRange_decayTick (s : CatStats) (now : Int) : InRange (decayTick s now) :=
  ⟨(clamp_mem _).1, (clamp_mem _).2, (clamp_mem _).1, (clamp_mem _).2,
    (clamp_mem _).1, (clamp_mem _).2⟩

/-- C3: the mood resolver, as every call site invokes it, evaluates the
spec's rules 1-12 in exactly the spec's priority order with first match
winning: it coincides with the rule list `resolveMoodSpec` transcribed from
the specification, rendered through `Mood.sprite`. -/
theorem getCatSprite_matches_spec_priority (stats : CatStats)
    (isEating isSleeping isPlaying isPetting isDragging : Bool)
    (direction : RunDir) (frame : RunFrame) (now : Int) :
    resolveMood stats isEating isSleeping isPlaying isPetting isDragging
        direction frame now =
      (resolveMoodSpec stats isEating isSleeping isPlaying isPetting isDragging now).sprite
        direction frame := by
  cases isEating <;> cases isSleeping <;> cases isPlaying <;> cases isPetting <;>
    cases isDragging <;>
      simp only [resolveMood, getCatSprite, resolveMoodSpec, Mood.sprite,
        Bool.and_self, Bool.and_false, Bool.and_true, Bool.false_and, Bool.true_and,
        Bool.not_false, Bool.not_true, if_true, if_false, Bool.false_eq_true,
        Bool.true_eq_false, ite_true, ite_false] <;>
      split_ifs <;> rfl

/-- C10: the decay tick writes only hunger, energy, happiness and
`lastInteraction`; the remaining eight `CatStats` fields are untouched. -/
theorem decayTick_frame (s : CatStats) (now : Int) :
    (decayTick s now).lastPet = s.lastPet ∧
    (decayTick s now).lastFed = s.lastFed ∧
    (decayTick s now).lastPlay = s.lastPlay ∧
    (decayTick s now).lastSleep = s.lastSleep ∧
    (decayTick s now).totalCareDays = s.totalCareDays ∧
    (decayTick s now).dailyStreak = s.dailyStreak ∧
    (decayTick s now).moodHistory = s.moodHistory ∧
    (decayTick s now).lastToy = s.lastToy :=
  ⟨rfl, rfl, rfl, rfl, rfl, rfl, rfl, rfl⟩

/-- C7: invoking Feed while `eating` is raised leaves the whole component
state untouched — stats, flags and the pending eating-clear timer alike. -/
theorem handleFeed_reentrant_noop (w : GameWorld) (now eatDur : Int)
    (h : w.eating = true) : handleFeed w now eatDur = w := by
  unfold handleFeed
  simp [h]

/-- Witness for C7 at a concrete mid-eating world. -/
theorem handleFeed_reentrant_noop_witness :
    ({ mkWorld (defaultStats 0) with eating := true, eatingTimer := some 5000 } :
        GameWorld).eating = true ∧
      handleFeed { mkWorld (defaultStats 0) with eating := true, eatingTimer := some 5000 }
          1234 4500 =
        { mkWorld (defaultStats 0) with eating := true, eatingTimer := some 5000 } :=
  ⟨rfl, handleFeed_reentrant_noop _ 1234 4500 rfl⟩

/-- C8: loading with no stored snapshot yields exactly the defaults, whose
documented fields are hunger 40, happiness 60, energy 70, totalCareDays 1,
dailyStreak 1; loading a stored snapshot merges it over the defaults, each
field present keeping its stored value and each absent field taking its
default; saving and reloading a full state reproduces it field for field. -/
theorem loadStats_defaults_merge_roundtrip :
    (∀ initNow : Int, loadStats none initNow = defaultStats initNow) ∧
    (∀ initNow : Int,
      (defaultStats initNow).hunger = 40 ∧
      (defaultStats initNow).happiness = 60 ∧
      (defaultStats initNow).energy = 70 ∧
      (defaultStats initNow).totalCareDays = 1 ∧
      (defaultStats initNow).dailyStreak = 1) ∧
    (∀ (snap : SavedSnapshot) (initNow : Int),
      (loadStats (some snap) initNow).hunger = snap.hunger.getD (defaultStats initNow).hunger ∧
      (loadStats (some snap) initNow).happiness =
        snap.happiness.getD (defaultStats initNow).happiness ∧
      (loadStats (some snap) initNow).energy = snap.energy.getD (defaultStats initNow).energy ∧
      (loadStats (some snap) initNow).lastInteraction =
        snap.lastInteraction.getD (defaultStats initNow).lastInteraction ∧
      (loadStats (some snap) initNow).lastPet = snap.lastPet.getD (defaultStats initNow).lastPet ∧
      (loadStats (some snap) initNow).lastFed = snap.lastFed.getD (defaultStats initNow).lastFed ∧
      (loadStats (some snap) initNow).lastPlay =
        snap.lastPlay.getD (defaultStats initNow).lastPlay ∧
      (loadStats (some snap) initNow).lastSleep =
        snap.lastSleep.getD (defaultStats initNow).lastSleep ∧
      (loadStats (some snap) initNow).totalCareDays =
        snap.totalCareDays.getD (defaultStats initNow).totalCareDays ∧
      (loadStats (some snap) initNow).dailyStreak =
        snap.dailyStreak.getD (defaultStats initNow).dailyStreak ∧
      (loadStats (some snap) initNow).moodHistory =
        snap.moodHistory.getD (defaultStats initNow).moodHistory ∧
      (loadStats (some snap) initNow).lastToy =
        snap.lastToy.getD (defaultStats initNow).lastToy) ∧
    (∀ (s : CatStats) (initNow : Int), loadStats (some (saveStats s)) initNow = s) :=
  ⟨fun _ => rfl,
   fun _ => ⟨rfl, rfl, rfl, rfl, rfl⟩,
   fun _ _ => ⟨rfl, rfl, rfl, rfl, rfl, rfl, rfl, rfl, rfl, rfl, rfl, rfl⟩,
   fun _ _ => rfl⟩

theorem inRange_handleFeed (w : GameWorld) (now eatDur : Int) (h : InRange w.stats) :
    InRange (handleFeed w now eatDur).stats := by
  obtain ⟨h1, h2, h3, h4, h5, h6⟩ := h
  unfold handleFeed
  split_ifs
  · exact ⟨h1, h2, h3, h4, h5, h6⟩
  · exact inRange_handleCombo _ _
      ⟨(clamp_mem _).1, (clamp_mem _).2, (clamp_mem _).1, (clamp_mem _).2, h5, h6⟩

theorem inRange_handlePlay (w : GameWorld) (toy : Toy) (now : Int)
    (h : InRange w.stats) : InRange (handlePlay w toy now).stats := by
  obtain ⟨h1, h2, h3, h4, h5, h6⟩ := h
  exact inRange_handleCombo _ _ ⟨h1, h2, h3, h4, h5, h6⟩

theorem inRange_handleStopPlaying (w : GameWorld) :
    InRange (handleStopPlaying w).stats :=
  ⟨(clamp_mem _).1, (clamp_mem _).2, (clamp_mem _).1, (clamp_mem _).2,
    (clamp_mem _).1, (clamp_mem _).2⟩

theorem inRange_handlePet (w : GameWorld) (now : Int) (h : InRange w.stats) :
    InRange (handlePet w now).stats := by
  obtain ⟨h1, h2, h3, h4, h5, h6⟩ := h
  exact inRange_handleCombo _ _
    ⟨h1, h2, (clamp_mem _).1, (clamp_mem _).2, h5, h6⟩

theorem inRange_handleSleep (w : GameWorld) (now : Int) (h : InRange w.stats) :
    InRange (handleSleep w now).stats := by
  obtain ⟨h1, h2, h3, h4, h5, h6⟩ := h
  exact inRange_handleCombo _ _
    ⟨h1, h2, h3, h4, (clamp_mem _).1, (clamp_mem _).2⟩

theorem inRange_handleTouchEnd (w : GameWorld) (tStart : Option Int) (now : Int)
    (h : InRange w.stats) : InRange (handleTouchEnd w tStart now).stats := by
  obtain ⟨h1, h2, h3, h4, h5, h6⟩ := h
  unfold handleTouchEnd
  cases tStart with
  | none => exact inRange_handlePet w now ⟨h1, h2, h3, h4, h5, h6⟩
  | some v =>
      dsimp only
      split_ifs
      · exact inRange_handleCombo _ _
          ⟨h1, h2, (clamp_mem _).1, (clamp_mem _).2, h5, h6⟩
      · exact inRange_handlePet w now ⟨h1, h2, h3, h4, h5, h6⟩

theorem inRange_randomEvent (s : CatStats) (fire up : Bool) (h : InRange s) :
    InRange (randomEvent s fire up) := by
  obtain ⟨h1, h2, h3, h4, h5, h6⟩ := h
  unfold randomEvent
  split_ifs
  · exact ⟨h1, h2, (clamp_mem _).1, (clamp_mem _).2, h5, h6⟩
  · exact ⟨h1, h2, (clamp_mem _).1, (clamp_mem _).2, h5, h6⟩
  · exact ⟨h1, h2, h3, h4, h5, h6⟩

/-- C1: from any state whose three stats lie in `[0, 100]`, every mutation
of the game — Feed, Play, Stop Playing, Pet (tap or long-press via touch
end), Sleep, the decay tick, the random event and the combo bonus — keeps
hunger, happiness and energy in `[0, 100]`; and `clamp` itself always lands
in `[0, 100]`, sending every out-of-range input to the violated bound and
fixing every in-range input. -/
theorem stat_mutations_stay_clamped (w : GameWorld) (now eatDur : Int) (toy : Toy)
    (tStart : Option Int) (fire up : Bool) (h : InRange w.stats) :
    InRange (handleFeed w now eatDur).stats ∧
    InRange (handlePlay w toy now).stats ∧
    InRange (handleStopPlaying w).stats ∧
    InRange (handlePet w now).stats ∧
    InRange (handleTouchEnd w tStart now).stats ∧
    InRange (handleSleep w now).stats ∧
    InRange (decayTick w.stats now) ∧
    InRange (randomEvent w.stats fire up) ∧
    InRange (handleCombo now w.stats) ∧
    (∀ v : Int, 0 ≤ clamp v ∧ clamp v ≤ 100) ∧
    (∀ v : Int, v ≤ 0 → clamp v = 0) ∧
    (∀ v : Int, 100 ≤ v → clamp v = 100) ∧
    (∀ v : Int, 0 ≤ v → v ≤ 100 → clamp v = v) :=
  ⟨inRange_handleFeed w now eatDur h,
   inRange_handlePlay w toy now h,
   inRange_handleStopPlaying w,
   inRange_handlePet w now h,
   inRange_handleTouchEnd w tStart now h,
   inRange_handleSleep w now h,
   inRange_decayTick w.stats now,
   inRange_randomEvent w.stats fire up h,
   inRange_handleCombo now w.stats h,
   clamp_mem,
   fun v hv => by unfold clamp; omega,
   fun v hv => by unfold clamp; omega,
   fun v hv hv2 => by unfold clamp; omega⟩

/-- Witness for C1 at the default state. -/
theorem stat_mutations_stay_clamped_witness :
    InRange (mkWorld (defaultStats 0)).stats ∧
    (InRange (handleFeed (mkWorld (defaultStats 0)) 7 5000).stats ∧
     InRange (handlePlay (mkWorld (defaultStats 0)) Toy.ball 7).stats ∧
     InRange (handleStopPlaying (mkWorld (defaultStats 0))).stats ∧
     InRange (handlePet (mkWorld (defaultStats 0)) 7).stats ∧
     InRange (handleTouchEnd (mkWorld (defaultStats 0)) (some 3) 7).stats ∧
     InRange (handleSleep (mkWorld (defaultStats 0)) 7).stats ∧
     InRange (decayTick (mkWorld (defaultStats 0)).stats 7) ∧
     InRange (randomEvent (mkWorld (defaultStats 0)).stats true false) ∧
     InRange (handleCombo 7 (mkWorld (defaultStats 0)).stats) ∧
     (∀ v : Int, 0 ≤ clamp v ∧ clamp v ≤ 100) ∧
     (∀ v : Int, v ≤ 0 → clamp v = 0) ∧
     (∀ v : Int, 100 ≤ v → clamp v = 100) ∧
     (∀ v : Int, 0 ≤ v → v ≤ 100 → clamp v = v)) :=
  ⟨by decide,
   stat_mutations_stay_clamped (mkWorld (defaultStats 0)) 7 5000 Toy.ball (some 3)
     true false (by decide)⟩

theorem decayIter_raw (n : Nat) (s : CatStats) (now : Int) (h : InRange s) :
    (decayIter n s now).energy = max 0 (s.energy - 2 * n) ∧
    (decayIter n s now).hunger = min 100 (s.hunger + 2 * n) ∧
    (decayIter n s now).happiness = max 0 (s.happiness - n) := by
  induction n generalizing s with
  | zero =>
      obtain ⟨h1, h2, h3, h4, h5, h6⟩ := h
      unfold decayIter
      refine ⟨?_, ?_, ?_⟩ <;> push_cast <;> omega
  | succ n ih =>
      obtain ⟨h1, h2, h3, h4, h5, h6⟩ := h
      have hstep := ih (decayTick s now) (inRange_decayTick s now)
      unfold decayIter
      refine ⟨?_, ?_, ?_⟩
      · rw [hstep.1]
        show max 0 (clamp (s.energy - 2) - 2 * (n : Int)) = _
        unfold clamp
        push_cast
        omega
      · rw [hstep.2.1]
        show min 100 (clamp (s.hunger + 2) + 2 * (n : Int)) = _
        unfold clamp
        push_cast
        omega
      · rw [hstep.2.2]
        show max 0 (clamp (s.happiness - 1) - (n : Int)) = _
        unfold clamp
        push_cast
        omega

/-- C6: from any state with stats in `[0, 100]`, `n` decay ticks lower
energy by `min (2n) energy`, raise hunger by `min (2n) (100 - hunger)` and
lower happiness by `min n happiness`: the iterated clamped decay equals the
single clamped total. -/
theorem decayIter_closed_form (n : Nat) (s : CatStats) (now : Int) (h : InRange s) :
    (decayIter n s now).energy = s.energy - min (2 * (n : Int)) s.energy ∧
    (decayIter n s now).hunger = s.hunger + min (2 * (n : Int)) (100 - s.hunger) ∧
    (decayIter n s now).happiness = s.happiness - min (n : Int) s.happiness := by
  have hr := decayIter_raw n s now h
  obtain ⟨h1, h2, h3, h4, h5, h6⟩ := h
  refine ⟨?_, ?_, ?_⟩
  · rw [hr.1]; omega
  · rw [hr.2.1]; omega
  · rw [hr.2.2]; omega

/-- Witness for C6: three ticks from the default state. -/
theorem decayIter_closed_form_witness :
    InRange (defaultStats 0) ∧
    ((decayIter 3 (defaultStats 0) 45000).energy =
        (defaultStats 0).energy - min (2 * ((3 : Nat) : Int)) (defaultStats 0).energy ∧
      (decayIter 3 (defaultStats 0) 45000).hunger =
        (defaultStats 0).hunger + min (2 * ((3 : Nat) : Int)) (100 - (defaultStats 0).hunger) ∧
      (decayIter 3 (defaultStats 0) 45000).happiness =
        (defaultStats 0).happiness - min ((3 : Nat) : Int) (defaultStats 0).happiness) :=
  ⟨by decide, decayIter_closed_form 3 (defaultStats 0) 45000 (by decide)⟩

/-- A starting world whose last interaction lies far in the past. -/
def staleWorld : GameWorld :=
  mkWorld { defaultStats 0 with happiness := 50, lastInteraction := -100000 }

/-- C2 counterexample: two Feed invocations 20,000 ms apart. The state the
second Feed sees has happiness 65 and `lastInteraction = 0` (the first
Feed's instant), so the claim predicts only the base `clamp (65 + 5) = 70`;
the code instead yields 80, because `handleCombo` compares `now` against
the `lastInteraction` the second Feed's own primary update just set to
`now`, and grants the +10 bonus despite the 20-second gap. -/
theorem combo_spacing_counterexample :
    (clearEating (handleFeed staleWorld 0 5000)).stats.happiness = 65 ∧
    (clearEating (handleFeed staleWorld 0 5000)).stats.lastInteraction = 0 ∧
    (clearEating (handleFeed staleWorld 0 5000)).eating = false ∧
    (handleFeed (clearEating (handleFeed staleWorld 0 5000)) 20000 5000).stats.happiness = 80 ∧
    clamp (65 + 5) = 70 ∧ ((80 : Int) ≠ 70) := by
  decide

/-- C2 amended: the combo check runs after the handler's primary update has
already set `lastInteraction := now`, so it observes a zero gap and every
combo-calling handler (Feed when not eating, Play, Pet, Sleep) adds the
+10 happiness bonus on top of its base effect unconditionally, whatever the
spacing from the previous interaction. -/
theorem combo_bonus_always_granted (w : GameWorld) (now eatDur : Int) (toy : Toy)
    (h : w.eating = false) :
    (handleFeed w now eatDur).stats.happiness = clamp (clamp (w.stats.happiness + 5) + 10) ∧
    (handlePlay w toy now).stats.happiness = clamp (w.stats.happiness + 10) ∧
    (handlePet w now).stats.happiness = clamp (clamp (w.stats.happiness + 15) + 10) ∧
    (handleSleep w now).stats.happiness = clamp (w.stats.happiness + 10) := by
  unfold handleFeed handlePlay handlePet handleSleep handleCombo
  simp [h]

/-- Witness for C2's amended claim at the default world. -/
theorem combo_bonus_always_granted_witness :
    (mkWorld (defaultStats 0)).eating = false ∧
    ((handleFeed (mkWorld (defaultStats 0)) 3 4800).stats.happiness =
        clamp (clamp ((mkWorld (defaultStats 0)).stats.happiness + 5) + 10) ∧
      (handlePlay (mkWorld (defaultStats 0)) Toy.mouse 3).stats.happiness =
        clamp ((mkWorld (defaultStats 0)).stats.happiness + 10) ∧
      (handlePet (mkWorld (defaultStats 0)) 3).stats.happiness =
        clamp (clamp ((mkWorld (defaultStats 0)).stats.happiness + 15) + 10) ∧
      (handleSleep (mkWorld (defaultStats 0)) 3).stats.happiness =
        clamp ((mkWorld (defaultStats 0)).stats.happiness + 10)) :=
  ⟨rfl, combo_bonus_always_granted (mkWorld (defaultStats 0)) 3 4800 Toy.mouse rfl⟩

/-- C4 counterexample: starting Play(ball) at the default world does not
leave the stats unchanged — the combo bonus `handlePlay` triggers raises
happiness from 60 to 70 at start time. -/
theorem play_start_counterexample :
    (mkWorld (defaultStats 0)).stats.happiness = 60 ∧
    (handlePlay (mkWorld (defaultStats 0)) Toy.ball 5).stats.happiness = 70 ∧
    ((70 : Int) ≠ 60) := by
  decide

/-- C4 amended: starting Play(toy) raises `isPlaying`, records the toy,
leaves hunger and energy unchanged, and changes happiness only by the +10
combo bonus (clamped); the toy's own deltas (ball: happiness +25, energy
-12, hunger +8; mouse: happiness +30, energy -8, hunger +6, each clamped)
are applied only by Stop Playing, which also lowers `isPlaying`. -/
theorem handlePlay_defers_deltas (w : GameWorld) (toy : Toy) (now : Int) :
    (handlePlay w toy now).isPlaying = true ∧
    (handlePlay w toy now).stats.hunger = w.stats.hunger ∧
    (handlePlay w toy now).stats.energy = w.stats.energy ∧
    (handlePlay w toy now).stats.happiness = clamp (w.stats.happiness + 10) ∧
    (handlePlay w toy now).stats.lastToy = some toy ∧
    (handleStopPlaying w).isPlaying = false ∧
    (handleStopPlaying w).stats.happiness =
      clamp (w.stats.happiness + if w.stats.lastToy = some Toy.ball then 25 else 30) ∧
    (handleStopPlaying w).stats.energy =
      clamp (w.stats.energy - if w.stats.lastToy = some Toy.ball then 12 else 8) ∧
    (handleStopPlaying w).stats.hunger =
      clamp (w.stats.hunger + if w.stats.lastToy = some Toy.ball then 8 else 6) := by
  unfold handlePlay handleStopPlaying handleCombo
  simp

/-- A world whose mood history already holds 20 entries. -/
def fullHistWorld : GameWorld :=
  mkWorld { defaultStats 0 with moodHistory := List.replicate 20 (MoodEntry.mk 0 "seed") }

/-- C5 counterexample: the mood-history effect keeps `slice(-20)` of the
previous history and then appends, so one update from a 20-entry history
yields 21 entries — above the claimed cap of 20. -/
theorem mood_history_cap_counterexample :
    fullHistWorld.stats.moodHistory.length = 20 ∧
    (moodHistoryTick fullHistWorld RunDir.right RunFrame.one 0).stats.moodHistory.length = 21 ∧
    ¬((21 : Nat) ≤ 20) := by
  decide

/-- C5 amended: each mood-history update keeps at most the 20 most recent
previous entries and appends one, so after every update the history holds
at most 21 entries (and can reach exactly 21). -/
theorem moodHistoryTick_length_le (w : GameWorld) (direction : RunDir)
    (frame : RunFrame) (now : Int) :
    (moodHistoryTick w direction frame now).stats.moodHistory.length ≤ 21 := by
  simp only [moodHistoryTick, List.length_append, List.length_drop,
    List.length_singleton]
  omega

/-- A world with mid-level happiness for the touch-gesture computations. -/
def midHappyWorld : GameWorld :=
  mkWorld { defaultStats 0 with happiness := 40 }

/-- C9 counterexample: a touch held for exactly 600 ms (start 1000, end
1600). The claim's threshold "at least 600 ms" selects the long-press
branch (+25), but the code's strict `> 600` comparison takes the tap
branch: `handlePet` runs (raising `isPetting`) and happiness lands at the
tap value 65, not the long-press value 75. -/
theorem touch_exact_600ms_counterexample :
    (handleTouchEnd midHappyWorld (some 1000) 1600).isPetting = true ∧
    (handleTouchEnd midHappyWorld (some 1000) 1600).stats.happiness = 65 ∧
    clamp (clamp (40 + 15) + 10) = 65 ∧
    clamp (clamp (40 + 25) + 10) = 75 ∧
    ((65 : Int) ≠ 75) := by
  decide

/-- C9 amended: with a recorded (non-zero) touch-start time, a hold of
strictly more than 600 ms takes the long-press branch (+25 happiness base,
then the +10 combo, without touching `isPetting`), and a hold of 600 ms or
less takes the tap branch `handlePet` (+15 base, then the +10 combo,
raising `isPetting`); the strict 600 ms comparison alone separates them. -/
theorem touch_threshold_strict (w : GameWorld) (v now : Int) (hv : v ≠ 0) :
    (600 < now - v →
      (handleTouchEnd w (some v) now).stats.happiness =
        clamp (clamp (w.stats.happiness + 25) + 10) ∧
      (handleTouchEnd w (some v) now).isPetting = w.isPetting) ∧
    (now - v ≤ 600 →
      (handleTouchEnd w (some v) now).stats.happiness =
        clamp (clamp (w.stats.happiness + 15) + 10) ∧
      (handleTouchEnd w (some v) now).isPetting = true) := by
  constructor
  · intro hgt
    unfold handleTouchEnd handleCombo
    dsimp only
    rw [if_pos ⟨hv, hgt⟩]
    simp
  · intro hle
    unfold handleTouchEnd handlePet handleCombo
    dsimp only
    rw [if_neg fun hc => absurd hc.2 (not_lt.mpr hle)]
    simp

/-- Witness for C9's amended claim: a 601 ms hold at the default world. -/
theorem touch_threshold_strict_witness :
    ((1000 : Int) ≠ 0) ∧
    ((600 < (1601 : Int) - 1000 →
       (handleTouchEnd (mkWorld (defaultStats 0)) (some 1000) 1601).stats.happiness =
         clamp (clamp ((mkWorld (defaultStats 0)).stats.happiness + 25) + 10) ∧
       (handleTouchEnd (mkWorld (defaultStats 0)) (some 1000) 1601).isPetting =
         (mkWorld (defaultStats 0)).isPetting) ∧
     ((1601 : Int) - 1000 ≤ 600 →
       (handleTouchEnd (mkWorld (defaultStats 0)) (some 1000) 1601).stats.happiness =
         clamp (clamp ((mkWorld (defaultStats 0)).stats.happiness + 15) + 10) ∧
       (handleTouchEnd (mkWorld (defaultStats 0)) (some 1000) 1601).isPetting = true)) :=
  ⟨by decide, touch_threshold_strict (mkWorld (defaultStats 0)) 1000 1601 (by decide)⟩
